import Mathlib

/-!
Shallow embedding of the OSC1Lite stimulation GUI controller
(`src/oscgui.py`) and proofs about its behaviour.

Numeric text fields hold decimal values entered by the user; we model them
as rationals.  The `osc1lite` module (device session layer) is not part of
the sources; where one of its details decides a property, the definition is
marked `Modelled from the spec:` in its doc comment.
-/

namespace OscGui

/-- Rise-time bucketing from `SquareWavePanel.get_waveform`
(`oscgui.py` lines 56-59):
`0 if rise_time < .05 else 1 if rise_time < .3 else 2 if rise_time < .75
else 3 if rise_time < 1.5 else 4`. -/
def riseMode (rise_time : ℚ) : Nat :=
  if rise_time < 0.05 then 0
  else if rise_time < 0.3 then 1
  else if rise_time < 0.75 then 2
  else if rise_time < 1.5 then 3
  else 4

/-- Model of `osc1lite.SquareWaveform`: amplitude (µA), pulse width (s), period (s)
and discrete rise mode, as constructed by `SquareWavePanel.get_waveform`. -/
structure SquareWaveform where
  amp : ℚ
  pw : ℚ
  period : ℚ
  mode : Nat
deriving DecidableEq, Repr

/-- Modelled from the spec: the `osc1lite` module is not in the sources;
its `SquareWaveform()` default constructor (used by `MainFrame.on_stop`)
produces a zero-amplitude, zero-period square wave. -/
def SquareWaveform.default : SquareWaveform :=
  { amp := 0, pw := 0, period := 0, mode := 0 }

/-- Model of the `osc1lite` waveform variants: square wave or custom sample list. -/
inductive Waveform where
  | square (w : SquareWaveform)
  | custom (samples : List ℚ)
deriving DecidableEq, Repr

/-- Model of `osc1lite.ChannelInfo`: waveform, pulse count (`0` = continuous) and
trigger source (`0` = PC trigger, `1` = external trigger, matching the
`trigger_choice` selection indices in `MainFrame.__init__`). -/
structure ChannelInfo where
  waveform : Waveform
  n_pulses : Int
  ext_trig : Nat
deriving DecidableEq, Repr

/-- State of a `SquareWavePanel`: the four decimal text fields
(amplitude µA, pulse width ms, period ms, rise time ms). -/
structure SquareWavePanel where
  amp_text : ℚ
  pw_text : ℚ
  period_text : ℚ
  rise_time_text : ℚ
deriving DecidableEq, Repr

/-- Embedding of `SquareWavePanel.get_waveform` (`oscgui.py` lines 55-64): derive the
rise mode from the rise-time field and convert ms fields to seconds. -/
def SquareWavePanel.get_waveform (p : SquareWavePanel) : SquareWaveform :=
  { amp := p.amp_text
    pw := p.pw_text / 1000
    period := p.period_text / 1000
    mode := riseMode p.rise_time_text }

/-- Reading `wx.SpinCtrl(parent, -1, min=1, max=0xffff)` (`oscgui.py` line 95):
the control clamps its value into `[1, 0xffff]`, so `GetValue` returns
the requested value clamped into that range. -/
def spinValue (raw : Int) : Int := max 1 (min raw 65535)

/-- State of a `WaveFormPanel`: the number-of-pulses spin control (raw
requested value, clamped on read) and the square-wave sub-panel.  The
custom-wave sub-panel is irrelevant to the proved properties but kept for
faithfulness of `channel_info`. -/
structure WaveFormPanel where
  num_of_pulses : Int
  p_square : SquareWavePanel
  p_custom : List ℚ
  squareSelected : Bool
deriving DecidableEq, Repr

/-- The active sub-panel's `get_waveform` (`self.detail.get_waveform()`). -/
def WaveFormPanel.detail_waveform (p : WaveFormPanel) : Waveform :=
  if p.squareSelected then Waveform.square p.p_square.get_waveform
  else Waveform.custom p.p_custom

/-- Embedding of `WaveFormPanel.channel_info` (`oscgui.py` lines 114-116):
`ChannelInfo(wf, n_pulses=self.num_of_pulses.GetValue())`.
Modelled from the spec for the field not set here: `ext_trig` defaults to
PC trigger (`0`); `MainFrame.on_trigger` overwrites it before use. -/
def WaveFormPanel.channel_info (p : WaveFormPanel) : ChannelInfo :=
  { waveform := p.detail_waveform
    n_pulses := spinValue p.num_of_pulses
    ext_trig := 0 }

/-- Per-channel UI state read by `MainFrame.on_trigger`: the selected
trigger source (`trigger_choice.GetSelection()`) and the continuous
toggle (`continuous_toggle.GetValue()`). -/
structure ChannelCtrl where
  trigger_choice : Nat
  continuous_toggle : Bool
deriving DecidableEq, Repr

/-- Calls issued to the device session (`osc1lite.OSC1Lite`). -/
inductive DeviceCall where
  | setChannel (ch : Nat) (info : ChannelInfo)
  | triggerChannel (ch : Nat)
deriving DecidableEq, Repr

/-- Embedding of `MainFrame.on_trigger` (`oscgui.py` lines 348-363) for the channel
whose trigger button fired: build `ChannelInfo` from the selected waveform
panel, overwrite `ext_trig` with the trigger-choice selection, force
`n_pulses` to 0 when the continuous toggle is on, then `set_channel`,
followed by `trigger_channel` exactly when `ext_trig == 0`.
Returns the `ChannelInfo` sent and the list of device calls in order. -/
def on_trigger (ch : Nat) (x : ChannelCtrl) (panel : WaveFormPanel) :
    ChannelInfo × List DeviceCall :=
  let data0 := panel.channel_info
  let data1 := { data0 with ext_trig := x.trigger_choice }
  let data := if x.continuous_toggle then { data1 with n_pulses := 0 } else data1
  (data,
    DeviceCall.setChannel ch data ::
      (if data.ext_trig = 0 then [DeviceCall.triggerChannel ch] else []))

/-- Embedding of `MainFrame.on_stop` (`oscgui.py` lines 376-386) for the channel whose
stop button fired: `set_channel(ch, ChannelInfo(SquareWaveform()))`
followed by `trigger_channel(ch)`.  Modelled from the spec for the
`ChannelInfo(wf)` defaults not in the sources: `n_pulses = 1`,
`ext_trig = 0`; the proved property touches neither. -/
def on_stop (ch : Nat) : List DeviceCall :=
  [DeviceCall.setChannel ch
     { waveform := Waveform.square SquareWaveform.default
       n_pulses := 1, ext_trig := 0 },
   DeviceCall.triggerChannel ch]

/-- Device-side channel configuration table: applying a list of session
calls updates the per-channel configuration; `set_channel` overwrites the
channel's slot, `trigger_channel` leaves configuration unchanged. -/
def runCalls (cfg : Nat → Option ChannelInfo) :
    List DeviceCall → (Nat → Option ChannelInfo)
  | [] => cfg
  | DeviceCall.setChannel ch info :: rest =>
      runCalls (fun j => if j = ch then some info else cfg j) rest
  | DeviceCall.triggerChannel _ :: rest => runCalls cfg rest

/-! ### Connection watcher: fault-poll mode (`MainFrame.device_watcher`) -/

/-- One fault-poll iteration's observations: whether `self.device` is still
set at the loop head, the transport's `IsOpen()` answer, and the channel
indices returned by `get_channel_warnings()`. -/
structure Poll where
  deviceSet : Bool
  isOpen : Bool
  warnings : List Nat
deriving DecidableEq, Repr

/-- Reports emitted by the watcher (log warnings in the source). -/
inductive WatchEvent where
  | unexpectedDisconnect
  | overlapWarning (ch : Nat)
deriving DecidableEq, Repr

/-- Embedding of `MainFrame.device_watcher` (`oscgui.py` lines 199-211) run against a
sequence of per-iteration observations: exit silently when `self.device`
is cleared; on `not IsOpen()` emit one unexpected-disconnect report and
return; otherwise report each warned channel and continue. -/
def device_watcher : List Poll → List WatchEvent
  | [] => []
  | p :: ps =>
      if p.deviceSet then
        if p.isOpen then
          p.warnings.map WatchEvent.overlapWarning ++ device_watcher ps
        else [WatchEvent.unexpectedDisconnect]
      else []

/-! ### Connection watcher: discovery mode (`MainFrame.device_lister`) -/

/-- Python truthiness test `if model and serial` on the pair
`(model, serial)`: both strings nonempty. -/
def goodEntry (e : String × String) : Bool := e.1 != "" && e.2 != ""

/-- Python dict assignment `d[k] = v` on an insertion-ordered association
list: overwrite in place if the key exists, else append. -/
def pyDictInsert (d : List (String × String)) (k v : String) :
    List (String × String) :=
  if d.any (fun p => p.1 == k) then
    d.map (fun p => if p.1 = k then (k, v) else p)
  else d ++ [(k, v)]

/-- The enumeration loop of `device_lister` (`oscgui.py` lines 172-179)
over the rows `(model, serial)` for indices `0..count-1`:
`if model and serial: devices[serial] = model else: break`. -/
def device_scan : List (String × String) → List (String × String) →
    List (String × String)
  | d, [] => d
  | d, e :: rest =>
      if goodEntry e then device_scan (pyDictInsert d e.2 e.1) rest else d

/-- Python dict lookup `d.get(k)` on an insertion-ordered association
list: the first (and, for dicts, only) pair with key `k`. -/
def dictLookup (d : List (String × String)) (k : String) : Option String :=
  (d.find? (fun p => p.1 == k)).map Prod.snd

/-- Python dict equality `d1 == d2`: insertion order is irrelevant; the
dicts are equal when every key of each maps to the same value in the
other. -/
def dictEq (d1 d2 : List (String × String)) : Bool :=
  d1.all (fun p => dictLookup d2 p.1 == some p.2) &&
    d2.all (fun p => dictLookup d1 p.1 == some p.2)

/-- One discovery iteration (`oscgui.py` lines 171-197): build the
serial→model mapping from the enumerated rows, and republish it (updating
selection/enable state) exactly when `devices != self.devices`, Python
dict inequality, i.e. the new mapping differs from the previously
published one as a mapping (insertion order irrelevant).
Returns the published mapping and the republish flag. -/
def lister_iteration (prev entries : List (String × String)) :
    List (String × String) × Bool :=
  let devices := device_scan [] entries
  (devices, !dictEq devices prev)

/-! ### Connect sequence (`MainFrame.on_connect`, connect branch) -/

/-- Steps of the connect sequence named by the claimed `ConnectFailed`
error. -/
inductive ConnStep where
  | openBySerial
  | configure
  | reset
  | initDac
  | enableDac
deriving DecidableEq, Repr

/-- Modelled from the spec: the `ok` transport and the `osc1lite` session
layer are not in the sources; each connect step may fail
(`OpenBySerial` by returning a nonzero error code, the `osc1lite` methods
by raising). -/
structure TransportBehavior where
  openOk : Bool
  configureOk : Bool
  resetOk : Bool
  initDacOk : Bool
  enableDacOk : Bool
deriving DecidableEq, Repr

/-- Events surfaced to the user by `on_connect` (log records in the
source; `connectFailed` never occurs but is the event the claim expects). -/
inductive GuiEvent where
  | connected
  | disconnected
  | connectFailed (step : ConnStep)
deriving DecidableEq, Repr

/-- Outcome of the connect branch: whether `self.device` is set
afterwards, the events surfaced, and the step whose exception escaped the
handler (if any). -/
structure ConnectResult where
  deviceHeld : Bool
  events : List GuiEvent
  raised : Option ConnStep
deriving DecidableEq, Repr

/-- Connect branch of `MainFrame.on_connect` (`oscgui.py` lines 389-409):
`OpenBySerial`'s error code is discarded (its result is never read);
`self.device` is set unconditionally before `configure`/`reset`/
`init_dac`/`enable_dac_output` run; an exception from any of those
escapes the handler with `self.device` still set and nothing surfaced;
only full success logs `Connected`. -/
def on_connect_connect (t : TransportBehavior) : ConnectResult :=
  if ¬t.configureOk then ⟨true, [], some ConnStep.configure⟩
  else if ¬t.resetOk then ⟨true, [], some ConnStep.reset⟩
  else if ¬t.initDacOk then ⟨true, [], some ConnStep.initDac⟩
  else if ¬t.enableDacOk then ⟨true, [], some ConnStep.enableDac⟩
  else ⟨true, [GuiEvent.connected], none⟩

/-! ### Session controller thread lifecycle (`MainFrame.on_connect`) -/

/-- The two background polling tasks. -/
inductive TaskKind where
  | lister
  | watcher
deriving DecidableEq, Repr

/-- Thread-lifecycle micro-steps performed by `on_connect`:
setting/clearing `self.device`, `self.thread.join()`, and
`self.thread.start()` on a freshly created thread. -/
inductive ThreadOp where
  | setDevice (b : Bool)
  | joinTask (t : TaskKind)
  | startTask (t : TaskKind)
deriving DecidableEq, Repr

/-- Controller state: whether `self.device` is set, and the multiset
(kept as a list) of background tasks currently active. -/
structure CtrlState where
  device : Bool
  active : List TaskKind
deriving DecidableEq, Repr

/-- Effect of one micro-step: a join blocks until the task exits and so
removes it from the active tasks; a start adds the new task. -/
def applyOp (s : CtrlState) : ThreadOp → CtrlState
  | ThreadOp.setDevice b => { s with device := b }
  | ThreadOp.joinTask t => { s with active := s.active.erase t }
  | ThreadOp.startTask t => { s with active := s.active ++ [t] }

def applyOps (s : CtrlState) (ops : List ThreadOp) : CtrlState :=
  ops.foldl applyOp s

/-- Micro-steps of the connect branch (`oscgui.py` lines 389-408):
`self.device = osc1lite.OSC1Lite(...)`, then `self.thread.join()` (the
discovery task), then start the watcher thread. -/
def connectOps : List ThreadOp :=
  [ThreadOp.setDevice true, ThreadOp.joinTask TaskKind.lister,
   ThreadOp.startTask TaskKind.watcher]

/-- Micro-steps of the disconnect branch (`oscgui.py` lines 410-425):
`self.device = None`, then `self.thread.join()` (the fault-poll task),
then start a new discovery thread. -/
def disconnectOps : List ThreadOp :=
  [ThreadOp.setDevice false, ThreadOp.joinTask TaskKind.watcher,
   ThreadOp.startTask TaskKind.lister]

/-- Branching of `on_connect` on `self.device is None`. -/
def pressOps (s : CtrlState) : List ThreadOp :=
  if s.device then disconnectOps else connectOps

/-- One press of the Connect/Disconnect button. -/
def press (s : CtrlState) : CtrlState := applyOps s (pressOps s)

/-- State after `MainFrame.__init__`: no device, discovery task started. -/
def initialState : CtrlState := ⟨false, [TaskKind.lister]⟩

/-- State after `n` presses of the Connect/Disconnect button. -/
def runPresses : Nat → CtrlState
  | 0 => initialState
  | n + 1 => press (runPresses n)

/-- The active background task is exactly the one matching the connected
state. -/
def modeMatches (s : CtrlState) : Prop :=
  s.active = [if s.device then TaskKind.watcher else TaskKind.lister]

instance (s : CtrlState) : Decidable (modeMatches s) := by
  unfold modeMatches; infer_instance

/-! ## Theorems -/

/-- C2: the derived rise mode is 0 iff `t < 0.05`, 1 iff `0.05 ≤ t < 0.3`,
2 iff `0.3 ≤ t < 0.75`, 3 iff `0.75 ≤ t < 1.5`, and 4 iff `t ≥ 1.5`; each
boundary value belongs to the next higher bucket, e.g. `t = 0.05` yields
bucket 1. -/
theorem riseMode_buckets (t : ℚ) :
    (riseMode t = 0 ↔ t < 0.05) ∧
    (riseMode t = 1 ↔ 0.05 ≤ t ∧ t < 0.3) ∧
    (riseMode t = 2 ↔ 0.3 ≤ t ∧ t < 0.75) ∧
    (riseMode t = 3 ↔ 0.75 ≤ t ∧ t < 1.5) ∧
    (riseMode t = 4 ↔ 1.5 ≤ t) ∧
    riseMode 0.05 = 1 := by
  have hb : riseMode 0.05 = 1 := by unfold riseMode; norm_num
  have main : (riseMode t = 0 ↔ t < 0.05) ∧
      (riseMode t = 1 ↔ 0.05 ≤ t ∧ t < 0.3) ∧
      (riseMode t = 2 ↔ 0.3 ≤ t ∧ t < 0.75) ∧
      (riseMode t = 3 ↔ 0.75 ≤ t ∧ t < 1.5) ∧
      (riseMode t = 4 ↔ 1.5 ≤ t) := by
    unfold riseMode
    split_ifs with h1 h2 h3 h4 <;>
      refine ⟨?_, ?_, ?_, ?_, ?_⟩ <;>
      constructor <;> intro hh <;>
      first
        | rfl
        | (exact hh.elim)
        | linarith
        | (exfalso; omega)
        | (exact ⟨by linarith, by linarith⟩)
  exact ⟨main.1, main.2.1, main.2.2.1, main.2.2.2.1, main.2.2.2.2, hb⟩

/-- C3: on a trigger action, the `ChannelInfo` sent to `set_channel` has
`n_pulses = 0` when the channel's continuous toggle is on, regardless of
the value in the pulse-count field; with the toggle off, `n_pulses` is the
pulse-count field's value. -/
theorem on_trigger_n_pulses (ch : Nat) (x : ChannelCtrl) (panel : WaveFormPanel) :
    ((on_trigger ch x panel).1).n_pulses =
      if x.continuous_toggle then 0 else spinValue panel.num_of_pulses := by
  cases hx : x.continuous_toggle <;>
    simp [on_trigger, WaveFormPanel.channel_info, hx]

/-- C4: a trigger action on channel `ch` issues `set_channel ch info`
first; `trigger_channel ch` follows if and only if `info.ext_trig = 0`
(PC trigger); when `ext_trig` is the external-trigger selection, only the
configuration write is issued. -/
theorem on_trigger_calls (ch : Nat) (x : ChannelCtrl) (panel : WaveFormPanel) :
    ((on_trigger ch x panel).1).ext_trig = x.trigger_choice ∧
    (on_trigger ch x panel).2 =
      DeviceCall.setChannel ch (on_trigger ch x panel).1 ::
        (if ((on_trigger ch x panel).1).ext_trig = 0 then
          [DeviceCall.triggerChannel ch] else []) ∧
    (DeviceCall.triggerChannel ch ∈ (on_trigger ch x panel).2 ↔
      ((on_trigger ch x panel).1).ext_trig = 0) ∧
    (x.trigger_choice ≠ 0 →
      (on_trigger ch x panel).2 =
        [DeviceCall.setChannel ch (on_trigger ch x panel).1]) := by
  by_cases hc : x.trigger_choice = 0 <;>
    cases hx : x.continuous_toggle <;>
      simp [on_trigger, WaveFormPanel.channel_info, hx, hc]

/-- C4 witness: with the external-trigger selection only the
configuration write is issued. -/
theorem on_trigger_calls_witness :
    (on_trigger 2 ⟨1, false⟩ ⟨20, ⟨2000, 100, 200, 0⟩, [], true⟩).2 =
      [DeviceCall.setChannel 2
        (on_trigger 2 ⟨1, false⟩ ⟨20, ⟨2000, 100, 200, 0⟩, [], true⟩).1] :=
  (on_trigger_calls 2 ⟨1, false⟩ ⟨20, ⟨2000, 100, 200, 0⟩, [], true⟩).2.2.2
    (by decide)

/-- C5: the stop action on channel `ch` performs `set_channel ch c` with
`c` carrying a zero-amplitude, zero-period square wave, followed by
`trigger_channel ch`; afterwards the channel's configuration reads back
with zero amplitude and zero period. -/
theorem on_stop_zero_config (ch : Nat) (cfg : Nat → Option ChannelInfo) :
    on_stop ch =
      [DeviceCall.setChannel ch
         { waveform := Waveform.square SquareWaveform.default
           n_pulses := 1, ext_trig := 0 },
       DeviceCall.triggerChannel ch] ∧
    SquareWaveform.default.amp = 0 ∧
    SquareWaveform.default.period = 0 ∧
    runCalls cfg (on_stop ch) ch =
      some { waveform := Waveform.square SquareWaveform.default
             n_pulses := 1, ext_trig := 0 } := by
  refine ⟨rfl, rfl, rfl, ?_⟩
  simp [on_stop, runCalls]

/-- C10: the `n_pulses` sent by a trigger action is 0 exactly when the
continuous toggle is on; otherwise it lies in `[1, 0xffff]` because the
pulse-count spin control clamps to `min=1`, `max=0xffff`. -/
theorem on_trigger_n_pulses_range (ch : Nat) (x : ChannelCtrl)
    (panel : WaveFormPanel) :
    (((on_trigger ch x panel).1).n_pulses = 0 ↔ x.continuous_toggle = true) ∧
    (x.continuous_toggle = false →
      1 ≤ ((on_trigger ch x panel).1).n_pulses ∧
      ((on_trigger ch x panel).1).n_pulses ≤ 65535) := by
  cases hx : x.continuous_toggle <;>
    simp [on_trigger, WaveFormPanel.channel_info, spinValue, hx] <;> omega

/-- C10 witness: a one-shot trigger with an out-of-range requested count
still sends a pulse count inside `[1, 0xffff]`. -/
theorem on_trigger_n_pulses_range_witness :
    1 ≤ ((on_trigger 0 ⟨0, false⟩ ⟨100000, ⟨2000, 100, 200, 0⟩, [], true⟩).1).n_pulses ∧
    ((on_trigger 0 ⟨0, false⟩ ⟨100000, ⟨2000, 100, 200, 0⟩, [], true⟩).1).n_pulses ≤ 65535 :=
  (on_trigger_n_pulses_range 0 ⟨0, false⟩
    ⟨100000, ⟨2000, 100, 200, 0⟩, [], true⟩).2 rfl

/-- Helper: while every poll sees the device set and the transport open,
the watcher reports exactly the flagged channels, iteration by iteration. -/
theorem device_watcher_healthy (polls : List Poll)
    (h : ∀ q ∈ polls, q.deviceSet = true ∧ q.isOpen = true) :
    device_watcher polls =
      polls.flatMap (fun q => q.warnings.map WatchEvent.overlapWarning) := by
  induction polls with
  | nil => rfl
  | cons q qs ih =>
      have hq := h q (List.mem_cons_self q qs)
      simp [device_watcher, hq.1, hq.2,
        ih (fun r hr => h r (List.mem_cons_of_mem q hr))]

/-- C7: in each healthy fault-poll iteration, every channel index returned
by `get_channel_warnings` produces exactly one overlap-warning report for
each time it occurs, and reports are not deduplicated across iterations:
the total count for a channel is the sum of its per-iteration counts. -/
theorem device_watcher_overlap_reports (polls : List Poll)
    (h : ∀ q ∈ polls, q.deviceSet = true ∧ q.isOpen = true) :
    device_watcher polls =
      polls.flatMap (fun q => q.warnings.map WatchEvent.overlapWarning) ∧
    ∀ c : Nat, (device_watcher polls).count (WatchEvent.overlapWarning c) =
      (polls.map (fun q => q.warnings.count c)).sum := by
  refine ⟨device_watcher_healthy polls h, ?_⟩
  intro c
  rw [device_watcher_healthy polls h]
  clear h
  induction polls with
  | nil => rfl
  | cons q qs ih =>
      simp only [List.flatMap_cons, List.count_append, List.map_cons,
        List.sum_cons, ih]
      congr 1
      exact List.count_map_of_injective q.warnings WatchEvent.overlapWarning
        (fun a b hab => by simpa using hab) c

/-- C7 witness: `get_channel_warnings` returning `[3, 7]` on two
consecutive polls yields two overlap reports each for channels 3 and 7. -/
theorem device_watcher_overlap_reports_witness :
    (device_watcher [⟨true, true, [3, 7]⟩, ⟨true, true, [3, 7]⟩]).count
        (WatchEvent.overlapWarning 3) = 2 ∧
    (device_watcher [⟨true, true, [3, 7]⟩, ⟨true, true, [3, 7]⟩]).count
        (WatchEvent.overlapWarning 7) = 2 := by
  have h := (device_watcher_overlap_reports
    [⟨true, true, [3, 7]⟩, ⟨true, true, [3, 7]⟩] (by decide)).2
  exact ⟨by rw [h 3]; rfl, by rw [h 7]; rfl⟩

/-- C6: if the transport reports not-open while the device is still held,
the watcher emits exactly one unexpected-disconnect report and the loop
terminates: later iterations contribute nothing (no reconnect, no further
warning polls). -/
theorem device_watcher_unexpected_disconnect (pre post : List Poll) (p : Poll)
    (hpre : ∀ q ∈ pre, q.deviceSet = true ∧ q.isOpen = true)
    (h1 : p.deviceSet = true) (h2 : p.isOpen = false) :
    device_watcher (pre ++ p :: post) =
      pre.flatMap (fun q => q.warnings.map WatchEvent.overlapWarning) ++
        [WatchEvent.unexpectedDisconnect] ∧
    (device_watcher (pre ++ p :: post)).count WatchEvent.unexpectedDisconnect
      = 1 := by
  have heq : device_watcher (pre ++ p :: post) =
      pre.flatMap (fun q => q.warnings.map WatchEvent.overlapWarning) ++
        [WatchEvent.unexpectedDisconnect] := by
    induction pre with
    | nil => simp [device_watcher, h1, h2]
    | cons q qs ih =>
        have hq := hpre q (List.mem_cons_self q qs)
        simp [device_watcher, hq.1, hq.2,
          ih (fun r hr => hpre r (List.mem_cons_of_mem q hr))]
  refine ⟨heq, ?_⟩
  rw [heq, List.count_append]
  have hz : (pre.flatMap
      (fun q => q.warnings.map WatchEvent.overlapWarning)).count
        WatchEvent.unexpectedDisconnect = 0 := by
    rw [List.count_eq_zero]
    intro hmem
    simp only [List.mem_flatMap, List.mem_map] at hmem
    rcases hmem with ⟨q, _, ch, _, habs⟩
    exact WatchEvent.noConfusion habs
  rw [hz]
  rfl

/-- C6 witness: one healthy poll, then the transport reports closed while
the device is held: one unexpected-disconnect report, and the later poll
contributes nothing. -/
theorem device_watcher_unexpected_disconnect_witness :
    device_watcher ([⟨true, true, [1]⟩] ++
        (⟨true, false, []⟩ : Poll) :: [⟨true, true, [2]⟩]) =
      [⟨true, true, [1]⟩].flatMap
        (fun q : Poll => q.warnings.map WatchEvent.overlapWarning) ++
        [WatchEvent.unexpectedDisconnect] ∧
    (device_watcher ([⟨true, true, [1]⟩] ++
        (⟨true, false, []⟩ : Poll) :: [⟨true, true, [2]⟩])).count
      WatchEvent.unexpectedDisconnect = 1 :=
  device_watcher_unexpected_disconnect [⟨true, true, [1]⟩]
    [⟨true, true, [2]⟩] ⟨true, false, []⟩ (by decide) rfl rfl

/-- Helper: the enumeration loop of `device_lister` stops at the first
gap; when the serials before the gap are distinct, the accumulated dict
is exactly the `(serial, model)` pairs before the gap, appended to the
accumulator. -/
theorem device_scan_eq (l : List (String × String)) :
    ∀ d : List (String × String),
    ((l.takeWhile goodEntry).map Prod.snd).Nodup →
    (∀ e ∈ l.takeWhile goodEntry, ∀ p ∈ d, p.1 ≠ e.2) →
    device_scan d l =
      d ++ (l.takeWhile goodEntry).map (fun e => (e.2, e.1)) := by
  induction l with
  | nil => intro d _ _; simp [device_scan]
  | cons e rest ih =>
      intro d hnd hdisj
      by_cases hg : goodEntry e
      · have htk : (e :: rest).takeWhile goodEntry =
            e :: rest.takeWhile goodEntry := by
          simp [List.takeWhile_cons, hg]
        rw [htk] at hnd hdisj
        have hmem : e ∈ e :: rest.takeWhile goodEntry :=
          List.mem_cons_self e _
        have hins : pyDictInsert d e.2 e.1 = d ++ [(e.2, e.1)] := by
          unfold pyDictInsert
          have : d.any (fun p => p.1 == e.2) = false := by
            rw [List.any_eq_false]
            intro p hp
            simpa using hdisj e hmem p hp
          rw [this]
          simp
        rw [List.map_cons] at hnd
        have hnd' : ((rest.takeWhile goodEntry).map Prod.snd).Nodup :=
          (List.nodup_cons.mp hnd).2
        have hhd : ∀ e' ∈ rest.takeWhile goodEntry, e.2 ≠ e'.2 := by
          intro e' he' hcontra
          exact (List.nodup_cons.mp hnd).1
            (hcontra ▸ List.mem_map_of_mem Prod.snd he')
        have hdisj' : ∀ e' ∈ rest.takeWhile goodEntry,
            ∀ p ∈ d ++ [(e.2, e.1)], p.1 ≠ e'.2 := by
          intro e' he' p hp
          rcases List.mem_append.mp hp with hpd | hpe
          · exact hdisj e' (List.mem_cons_of_mem e he') p hpd
          · simp at hpe
            subst hpe
            exact hhd e' he'
        calc device_scan d (e :: rest)
            = device_scan (d ++ [(e.2, e.1)]) rest := by
              simp [device_scan, hg, hins]
          _ = (d ++ [(e.2, e.1)]) ++
                (rest.takeWhile goodEntry).map (fun e => (e.2, e.1)) :=
              ih _ hnd' hdisj'
          _ = d ++
                ((e :: rest).takeWhile goodEntry).map (fun e => (e.2, e.1)) := by
              rw [htk]; simp
      · have hg' : goodEntry e = false := by simpa using hg
        simp [device_scan, hg', List.takeWhile_cons]

/-- Helper: in a dict whose keys are distinct, every stored pair is found
by lookup on its key. -/
theorem dictLookup_of_mem (d : List (String × String))
    (hnd : (d.map Prod.fst).Nodup) (p : String × String) (hp : p ∈ d) :
    dictLookup d p.1 = some p.2 := by
  induction d with
  | nil => cases hp
  | cons q rest ih =>
      rw [List.map_cons, List.nodup_cons] at hnd
      rcases List.mem_cons.mp hp with hq | hrest
      · subst hq
        simp [dictLookup, List.find?_cons]
      · have hne : q.1 ≠ p.1 := by
          intro he
          exact hnd.1 (he ▸ List.mem_map_of_mem Prod.fst hrest)
        have : dictLookup rest p.1 = some p.2 := ih hnd.2 hrest
        simpa [dictLookup, List.find?_cons, hne] using this

/-- Helper: for dicts with distinct keys, `dictEq` holds exactly when the
two dicts agree as mappings, i.e. look up equal on every key —
insertion order is irrelevant, as for Python `==` on dicts. -/
theorem dictEq_true_iff (d1 d2 : List (String × String))
    (hnd1 : (d1.map Prod.fst).Nodup) (hnd2 : (d2.map Prod.fst).Nodup) :
    dictEq d1 d2 = true ↔ ∀ k, dictLookup d1 k = dictLookup d2 k := by
  unfold dictEq
  rw [Bool.and_eq_true, List.all_eq_true, List.all_eq_true]
  constructor
  · rintro ⟨h1, h2⟩ k
    rcases hfind : dictLookup d1 k with _ | v
    · rcases hfind2 : dictLookup d2 k with _ | w
      · rfl
      · exfalso
        rcases Option.map_eq_some'.mp hfind2 with ⟨q, hq, hqv⟩
        have hqk : q.1 = k := by
          have := List.find?_some hq
          simpa using this
        have := h2 q (List.mem_of_find?_eq_some hq)
        rw [beq_iff_eq] at this
        rw [hqk, hfind] at this
        cases this
    · rcases Option.map_eq_some'.mp hfind with ⟨p, hp, hpv⟩
      have hpk : p.1 = k := by
        have := List.find?_some hp
        simpa using this
      have := h1 p (List.mem_of_find?_eq_some hp)
      rw [beq_iff_eq] at this
      rw [hpk] at this
      rw [this, hpv]
  · intro h
    constructor
    · intro p hp
      rw [beq_iff_eq, ← h p.1]
      exact dictLookup_of_mem d1 hnd1 p hp
    · intro p hp
      rw [beq_iff_eq, h p.1]
      exact dictLookup_of_mem d2 hnd2 p hp

/-- C8: a discovery iteration publishes exactly the `(serial, model)`
pairs of the enumerated rows before the first row with an empty model or
serial (provided the serials before the gap are distinct, as are the keys
of the previously published dict), and it republishes exactly when the
new mapping differs from the previously published one as a mapping —
Python dict inequality, insertion order irrelevant. -/
theorem device_lister_publish (prev entries : List (String × String))
    (hnd : ((entries.takeWhile goodEntry).map Prod.snd).Nodup)
    (hprev : (prev.map Prod.fst).Nodup) :
    (lister_iteration prev entries).1 =
      (entries.takeWhile goodEntry).map (fun e => (e.2, e.1)) ∧
    ((lister_iteration prev entries).2 = true ↔
      ¬ ∀ k, dictLookup
          ((entries.takeWhile goodEntry).map (fun e => (e.2, e.1))) k =
        dictLookup prev k) := by
  have h := device_scan_eq entries [] hnd (by intro e he p hp; simp at hp)
  simp only [List.nil_append] at h
  have hkeys : ((((entries.takeWhile goodEntry)).map
      (fun e => (e.2, e.1))).map Prod.fst).Nodup := by
    simpa [List.map_map, Function.comp] using hnd
  have hfst : (lister_iteration prev entries).1 =
      (entries.takeWhile goodEntry).map (fun e => (e.2, e.1)) := by
    unfold lister_iteration
    rw [h]
  have hsnd : (lister_iteration prev entries).2 =
      !dictEq ((entries.takeWhile goodEntry).map (fun e => (e.2, e.1)))
        prev := by
    unfold lister_iteration
    rw [h]
  refine ⟨hfst, ?_⟩
  rw [hsnd]
  constructor
  · intro hb hall
    rw [(dictEq_true_iff _ _ hkeys hprev).mpr hall] at hb
    cases hb
  · intro hna
    rcases hbe : dictEq ((entries.takeWhile goodEntry).map
        (fun e => (e.2, e.1))) prev with _ | _
    · rw [hbe]; rfl
    · exact absurd ((dictEq_true_iff _ _ hkeys hprev).mp hbe) hna

/-- C8 witness: enumerating `[("OSC1Lite-A", "SN001"), ("", "")]`
publishes `[("SN001", "OSC1Lite-A")]`, stopping at the first gap, and
republishes because the mapping changed from empty (it now maps
`"SN001"`). -/
theorem device_lister_publish_witness :
    (lister_iteration [] [("OSC1Lite-A", "SN001"), ("", "")]).1 =
      ([("OSC1Lite-A", "SN001"), ("", "")].takeWhile goodEntry).map
        (fun e => (e.2, e.1)) ∧
    ([("OSC1Lite-A", "SN001"), ("", "")].takeWhile goodEntry).map
        (fun e : String × String => (e.2, e.1)) = [("SN001", "OSC1Lite-A")] ∧
    (lister_iteration [] [("OSC1Lite-A", "SN001"), ("", "")]).2 = true := by
  have h := device_lister_publish [] [("OSC1Lite-A", "SN001"), ("", "")]
    (by decide) (by decide)
  exact ⟨h.1, by decide, h.2.mpr (fun hall => absurd (hall "SN001") (by decide))⟩

/-- C9 counterexample: with the configure step failing, the connect
branch leaves the device handle held (state is not Disconnected), and no
`ConnectFailed` — indeed no event at all — is surfaced; the exception
escapes at the configure step. -/
theorem on_connect_failure_counterexample :
    (TransportBehavior.mk true false true true true).configureOk = false ∧
    (on_connect_connect ⟨true, false, true, true, true⟩).deviceHeld = true ∧
    (on_connect_connect ⟨true, false, true, true, true⟩).events = [] ∧
    (on_connect_connect ⟨true, false, true, true, true⟩).raised =
      some ConnStep.configure := by
  decide

/-- C9 (amended): the connect branch performs no error handling — the
open-by-serial error code is discarded and the remaining steps run
unconditionally; a failing step aborts the handler by exception with the
device handle still set (state not Disconnected) and surfaces no
`ConnectFailed`; `Connected` is reported exactly when every step after
open succeeds. -/
theorem on_connect_no_rollback (t : TransportBehavior) :
    (on_connect_connect t).deviceHeld = true ∧
    (∀ s : ConnStep,
      GuiEvent.connectFailed s ∉ (on_connect_connect t).events) ∧
    ((on_connect_connect t).events =
      if t.configureOk && t.resetOk && t.initDacOk && t.enableDacOk
      then [GuiEvent.connected] else []) ∧
    ((on_connect_connect t).raised = none ↔
      (t.configureOk && t.resetOk && t.initDacOk && t.enableDacOk) = true) := by
  rcases t with ⟨o, c, r, i, e⟩
  cases c <;> cases r <;> cases i <;> cases e <;>
    simp [on_connect_connect]

/-- C9 witness: a fully successful connect holds the device and surfaces
no `ConnectFailed`. -/
theorem on_connect_no_rollback_witness :
    (on_connect_connect ⟨true, true, true, true, true⟩).deviceHeld = true ∧
    GuiEvent.connectFailed ConnStep.configure ∉
      (on_connect_connect ⟨true, true, true, true, true⟩).events :=
  ⟨(on_connect_no_rollback ⟨true, true, true, true, true⟩).1,
   (on_connect_no_rollback ⟨true, true, true, true, true⟩).2.1
     ConnStep.configure⟩

/-- Helper: one button press preserves the mode/task correspondence. -/
theorem modeMatches_press (s : CtrlState) (h : modeMatches s) :
    modeMatches (press s) := by
  rcases s with ⟨d, a⟩
  unfold modeMatches at h
  cases d <;> simp at h <;> subst h <;> decide

/-- Helper: after any number of presses the active background task is
exactly the one matching the connected state. -/
theorem modeMatches_run (n : Nat) : modeMatches (runPresses n) := by
  induction n with
  | zero => decide
  | succ n ih => exact modeMatches_press _ ih

/-- Helper: from a matching state, every intermediate point of the next
press's micro-step sequence has at most one active background task. -/
theorem controller_step_safe (s : CtrlState) (h : modeMatches s) (k : Nat) :
    ((applyOps s ((pressOps s).take k)).active).length ≤ 1 := by
  rcases s with ⟨d, a⟩
  unfold modeMatches at h
  cases d <;> simp at h <;> subst h <;>
    rcases k with _ | _ | _ | k <;>
    first
      | decide
      | (rw [List.take_of_length_le
            (by simp [pressOps, connectOps, disconnectOps])]
         decide)

/-- C1: at most one of the two background polling loops is active at any
point of any connect/disconnect sequence — at every press boundary the
active task is exactly the one matching the connected state, every
intermediate micro-step of a press keeps at most one task active, and in
the connect (resp. disconnect) branch the discovery (resp. fault-poll)
task is joined strictly before the fault-poll (resp. discovery) task is
started. -/
theorem controller_mode_exclusivity :
    (∀ n : Nat, modeMatches (runPresses n)) ∧
    (∀ n k : Nat,
      ((applyOps (runPresses n)
        ((pressOps (runPresses n)).take k)).active).length ≤ 1) ∧
    (∃ i j : Nat, i < j ∧
      connectOps[i]? = some (ThreadOp.joinTask TaskKind.lister) ∧
      connectOps[j]? = some (ThreadOp.startTask TaskKind.watcher)) ∧
    (∃ i j : Nat, i < j ∧
      disconnectOps[i]? = some (ThreadOp.joinTask TaskKind.watcher) ∧
      disconnectOps[j]? = some (ThreadOp.startTask TaskKind.lister)) :=
  ⟨modeMatches_run,
   fun n k => controller_step_safe _ (modeMatches_run n) k,
   ⟨1, 2, by decide⟩, ⟨1, 2, by decide⟩⟩

end OscGui
